import Mathlib

/-!
Shallow embedding of `src/app.py` (a Streamlit QR-code generator).

The script's interactive run is modelled as pure functions:
* `generate_qr_image`  — lines 142-167 (the external `qrcode` library is
  modelled from the spec: version 1-40 auto-selection at error-correction
  level M, raster of `(moduleCount + 2*border) * box_size` pixels per side);
* `image_to_bytes`     — lines 170-181 (PIL's PNG serialization is modelled
  from the spec as the PNG container: signature, IHDR with big-endian
  width/height, then pixel data);
* `shorten_url`        — lines 216-245, parameterized over the behaviour of
  the `pyshorteners` provider call (which may raise);
* `btn_url`            — the submit handler, lines 297-323, as an explicit
  transformer of the session state;
* `render_result`      — the result display, lines 326-335, including the
  nearest-neighbour resize and PNG export of `display_qr_and_download`
  (lines 184-213).
-/

/-- A PIL raster image: a width, a height, and a colour (a string, as the
app passes colours as strings) for each pixel coordinate. -/
structure PILImage where
  width : Nat
  height : Nat
  pixel : Nat → Nat → String

/-- Modelled from the spec: `img.resize((w, h), Image.NEAREST)` — PIL's
nearest-neighbour resampling (the PIL library is external).  The output has
exactly the requested dimensions and each output pixel copies the source
pixel at the proportionally scaled coordinate. -/
def PILImage.resize (img : PILImage) (w h : Nat) : PILImage :=
  { width := w
    height := h
    pixel := fun x y => img.pixel (x * img.width / w) (y * img.height / h) }

/-- Modelled from the spec: byte capacities of the QR symbol standard at
error-correction level M (byte mode), versions 1-40 — the limits the
external `qrcode` library enforces when `version=None, fit=True`
auto-selects the minimal version. -/
def qrCapacityM : Nat → Nat
  | 1 => 14 | 2 => 26 | 3 => 42 | 4 => 62 | 5 => 84
  | 6 => 106 | 7 => 122 | 8 => 152 | 9 => 180 | 10 => 213
  | 11 => 251 | 12 => 287 | 13 => 331 | 14 => 362 | 15 => 412
  | 16 => 450 | 17 => 504 | 18 => 560 | 19 => 624 | 20 => 666
  | 21 => 711 | 22 => 779 | 23 => 857 | 24 => 911 | 25 => 997
  | 26 => 1059 | 27 => 1125 | 28 => 1190 | 29 => 1264 | 30 => 1370
  | 31 => 1452 | 32 => 1538 | 33 => 1628 | 34 => 1722 | 35 => 1809
  | 36 => 1911 | 37 => 1989 | 38 => 2099 | 39 => 2213 | 40 => 2331
  | _ => 0

/-- Minimal QR version (1-40) whose level-M byte capacity holds `n` bytes;
`none` when even version 40 overflows (the library's `DataOverflowError`). -/
def qrVersionFor (n : Nat) : Option Nat :=
  (List.range' 1 40).find? (fun v => n ≤ qrCapacityM v)

/-- Modules per side of a QR symbol of version `v`. -/
def moduleCount (v : Nat) : Nat := 4 * v + 17

/-- Modelled from the spec: the QR module pattern itself is produced by the
external `qrcode` library and is out of scope; it is modelled as a fixed
deterministic Boolean function of the payload, the selected version and the
module position.  No claim depends on the particular pattern. -/
def qrModule (data : String) (v r c : Nat) : Bool :=
  (data.utf8ByteSize + v + 31 * r + 17 * c) % 2 == 0

/-- The function `generate_qr_image` (src/app.py lines 142-167): builds a `qrcode.QRCode`
with `version=None`, error correction M, the given `box_size` and `border`,
calls `make(fit=True)` and renders fill colour on white.  A payload beyond
version-40 capacity raises `DataOverflowError`, modelled as `.error`. -/
def generate_qr_image (data : String) (fill_color : String := "black")
    (box_size : Nat := 10) (border : Nat := 4) : Except String PILImage :=
  match qrVersionFor data.utf8ByteSize with
  | none => .error "DataOverflowError"
  | some v =>
    let mc := moduleCount v
    let side := (mc + 2 * border) * box_size
    .ok { width := side
          height := side
          pixel := fun x y =>
            let r := y / box_size
            let c := x / box_size
            if border ≤ r ∧ r < border + mc ∧ border ≤ c ∧ c < border + mc then
              (if qrModule data v (r - border) (c - border) then fill_color else "white")
            else "white" }

/-- The 8-byte PNG file signature. -/
def pngSignature : List Nat := [137, 80, 78, 71, 13, 10, 26, 10]

/-- Big-endian 4-byte encoding of a 32-bit quantity. -/
def u32be (n : Nat) : List Nat :=
  [n / 2 ^ 24 % 256, n / 2 ^ 16 % 256, n / 2 ^ 8 % 256, n % 256]

/-- Serialize one pixel's colour string as bytes (a model of the pixel
payload; the claims only use that it is a function of the pixel data). -/
def colorBytes (c : String) : List Nat := c.data.map (fun ch => ch.toNat % 256)

/-- All pixel bytes of an image, row-major. -/
def pixelBytes (img : PILImage) : List Nat :=
  (List.range img.height).flatMap (fun y =>
    (List.range img.width).flatMap (fun x => colorBytes (img.pixel x y)))

/-- The function `image_to_bytes` (src/app.py lines 170-181): `img.save(buf, "PNG")`.
Modelled from the spec as the PNG container: signature, then the IHDR chunk
(length 13, tag "IHDR", big-endian width and height, bit depth 8, colour
type 2, compression 0, filter 0, interlace 0), then the pixel data. -/
def image_to_bytes (img : PILImage) : List Nat :=
  pngSignature ++ u32be 13 ++ [73, 72, 68, 82] ++
    u32be img.width ++ u32be img.height ++ [8, 2, 0, 0, 0] ++ pixelBytes img

/-- Big-endian value of a byte list. -/
def beNat (bs : List Nat) : Nat := bs.foldl (fun a b => a * 256 + b) 0

/-- Decode the pixel dimensions of a PNG byte stream: check the signature
and read the IHDR width (bytes 16-19) and height (bytes 20-23). -/
def pngDecodeDims (bs : List Nat) : Option (Nat × Nat) :=
  if bs.take 8 = pngSignature then
    some (beNat ((bs.drop 16).take 4), beNat ((bs.drop 20).take 4))
  else none

/-- The providers `shorten_url` knows (the keys of `service_map`,
src/app.py lines 230-235). -/
def serviceNames : List String := ["TinyURL", "Is.gd", "Da.gd", "Clck.ru"]

/-- Observable outcome of one `shorten_url` call: the returned value
(`None` is `none`), how many network calls were made, and the `st.error`
messages shown. -/
structure ShortenOut where
  result : Option String
  networkCalls : Nat
  errors : List String
deriving Repr, DecidableEq

/-- Behaviour of the external provider call `svc.short(url)`: for a service
name and a url, either a returned string or a raised exception message. -/
def ProviderStub : Type := String → String → Except String String

/-- The function `shorten_url` (src/app.py lines 216-245): look the service name up in
`service_map` (returning `None` with no network call when absent), then call
`svc.short(url)` inside `try/except Exception`, converting any raised
exception into an `st.error` message and a `None` result. -/
def shorten_url (stub : ProviderStub) (url : String) (service_name : String) :
    ShortenOut :=
  if serviceNames.contains service_name then
    match stub service_name url with
    | .ok s => { result := some s, networkCalls := 1, errors := [] }
    | .error e =>
      { result := none, networkCalls := 1
        errors := ["URL短縮に失敗しました: " ++ e] }
  else
    { result := none, networkCalls := 0, errors := [] }

/-- Python's `s.startswith(p)`: `p` is a prefix of the character sequence
of `s` (UTF-8 byte prefix and character prefix coincide). -/
def pyStartsWith (s p : String) : Bool := p.data.isPrefixOf s.data

/-- Python truthiness of an `Optional[str]`: `None` and `""` are falsy. -/
def truthy : Option String → Bool
  | none => false
  | some s => s ≠ ""

/-- The session-state keys the handler touches: `url_qr_img`, `url_target`,
`url_short` (each may be absent). -/
structure SessionState where
  url_qr_img : Option PILImage
  url_target : Option String
  url_short : Option String

/-- Everything observable about one run of the submit handler: the session
state afterwards, the `st.warning` messages, the `st.error` messages, the
payload handed to `generate_qr_image` (if reached), the number of network
calls, and the uncaught exception (if any) that the framework surfaces as
an inline error box. -/
structure RunResult where
  state : SessionState
  warnings : List String
  errors : List String
  encoded_payload : Option String
  networkCalls : Nat
  uncaught : Option String

/-- The `btn_url` submit handler (src/app.py lines 297-323).  Inputs: the
provider stub, the prior session state, the text input, the selected fill
colour, the shortening checkbox and the selected service.  Validation
failures warn and leave the state untouched; a falsy shortener result falls
back to the original URL; the fresh image, target and (truthy) short URL
are stored, and a stale `url_short` is popped otherwise.  An exception from
`generate_qr_image` is uncaught: no state line runs. -/
def btn_url (stub : ProviderStub) (st0 : SessionState)
    (url_input qr_color : String) (use_shortener : Bool) (service : String) :
    RunResult :=
  if url_input = "" then
    { state := st0, warnings := ["URLを入力してください。"], errors := []
      encoded_payload := none, networkCalls := 0, uncaught := none }
  else if !(pyStartsWith url_input "http://" || pyStartsWith url_input "https://") then
    { state := st0, warnings := ["URLは http:// または https:// で始めてください。"]
      errors := [], encoded_payload := none, networkCalls := 0, uncaught := none }
  else
    let s : ShortenOut :=
      if use_shortener then shorten_url stub url_input service
      else { result := none, networkCalls := 0, errors := [] }
    let short_url : Option String := if truthy s.result then s.result else none
    let target_url : String :=
      if truthy s.result then s.result.getD url_input else url_input
    match generate_qr_image target_url qr_color 10 4 with
    | .error e =>
      { state := st0, warnings := [], errors := s.errors
        encoded_payload := some target_url, networkCalls := s.networkCalls
        uncaught := some e }
    | .ok img =>
      { state :=
          { url_qr_img := some img
            url_target := some target_url
            url_short := if truthy short_url then short_url else none }
        warnings := [], errors := s.errors
        encoded_payload := some target_url, networkCalls := s.networkCalls
        uncaught := none }

/-- What the result display produces: the short-URL success message (if
shown) and the PNG bytes offered for download at the selected size. -/
structure RenderOut where
  shortMessage : Option String
  png : Option (List Nat)

/-- The result display (src/app.py lines 326-335) plus
`display_qr_and_download` (lines 184-213): nothing is rendered without a
cached image; the short-URL banner shows iff `url_short` is cached; the
download bytes are the cached image resized to `qr_size × qr_size` with
nearest-neighbour sampling and exported as PNG. -/
def render_result (st : SessionState) (qr_size : Nat) : RenderOut :=
  match st.url_qr_img with
  | none => { shortMessage := none, png := none }
  | some img =>
    { shortMessage := st.url_short.map (fun s => "短縮URL: " ++ s)
      png := some (image_to_bytes (img.resize qr_size qr_size)) }

/-! ### Helper lemmas -/

theorem utf8Len_replicate (n : Nat) (c : Char) :
    String.utf8Len (List.replicate n c) = n * c.utf8Size := by
  induction n with
  | zero => simp
  | succ k ih => simp [List.replicate, ih, Nat.succ_mul]

/-- A URL one byte past the version-40 level-M capacity: `"https://"`
followed by 2340 copies of `'a'`, 2348 bytes in all. -/
def bigUrl : String := "https://" ++ String.mk (List.replicate 2340 'a')

theorem bigUrl_size : bigUrl.utf8ByteSize = 2348 := by
  show String.utf8Len ("https://".data ++ List.replicate 2340 'a') = 2348
  rw [String.utf8Len_append, utf8Len_replicate]
  have h1 : String.utf8Len "https://".data = 8 := by decide
  have h2 : Char.utf8Size 'a' = 1 := by decide
  rw [h1, h2]

theorem bigUrl_ne_empty : bigUrl ≠ "" := by
  intro h
  have h2 := congrArg String.utf8ByteSize h
  rw [bigUrl_size] at h2
  simp [String.utf8ByteSize] at h2

theorem bigUrl_https : pyStartsWith bigUrl "https://" = true := by decide

theorem qrCapacityM_le (v : Nat) : qrCapacityM v ≤ 2331 := by
  unfold qrCapacityM
  split <;> omega

theorem qrVersionFor_eq_none {n : Nat} (h : 2331 < n) : qrVersionFor n = none := by
  unfold qrVersionFor
  rw [List.find?_eq_none]
  intro v _ hv
  have := qrCapacityM_le v
  simp at hv
  omega

theorem qrVersionFor_eq_some {n : Nat} (h : n ≤ 2331) :
    ∃ v, qrVersionFor n = some v ∧ 1 ≤ v ∧ v ≤ 40 := by
  have hsome : (qrVersionFor n).isSome := by
    unfold qrVersionFor
    rw [List.find?_isSome]
    refine ⟨40, ?_, ?_⟩
    · decide
    · simpa [qrCapacityM] using h
  rcases Option.isSome_iff_exists.mp hsome with ⟨v, hv⟩
  have hmem := List.mem_of_find?_eq_some hv
  rw [List.mem_range'] at hmem
  rcases hmem with ⟨i, hi, rfl⟩
  exact ⟨1 + 1 * i, hv, by omega, by omega⟩

theorem generate_qr_image_overflow (fill : String) :
    generate_qr_image bigUrl fill 10 4 = .error "DataOverflowError" := by
  unfold generate_qr_image
  rw [bigUrl_size, qrVersionFor_eq_none (by omega)]

/-- The `ShortenOut` the handler sees: the adapter's outcome if shortening
was requested, and the initial `None` of line 287 otherwise. -/
def resolvedShorten (stub : ProviderStub) (url : String) (us : Bool)
    (service : String) : ShortenOut :=
  if us then shorten_url stub url service
  else { result := none, networkCalls := 0, errors := [] }

/-- The `short_url` local after lines 306-311: the adapter result when
truthy, otherwise `None`. -/
def resolvedShort (stub : ProviderStub) (url : String) (us : Bool)
    (service : String) : Option String :=
  if truthy (resolvedShorten stub url us service).result then
    (resolvedShorten stub url us service).result
  else none

/-- The `target_url` local after lines 306-311: the truthy adapter result,
otherwise the original input. -/
def resolvedTarget (stub : ProviderStub) (url : String) (us : Bool)
    (service : String) : String :=
  if truthy (resolvedShorten stub url us service).result then
    (resolvedShorten stub url us service).result.getD url
  else url

theorem resolvedShort_idem (stub : ProviderStub) (url : String) (us : Bool)
    (service : String) :
    (if truthy (resolvedShort stub url us service) then
        resolvedShort stub url us service
      else none) = resolvedShort stub url us service := by
  unfold resolvedShort
  by_cases h : truthy (resolvedShorten stub url us service).result = true
  · rw [if_pos h, if_pos h]
  · rw [if_neg h]
    rfl

/-- On the valid-input path, `btn_url` is the shorten/encode/cache block of
lines 303-323, written out. -/
theorem btn_url_valid_eq (stub : ProviderStub) (st0 : SessionState)
    (url color : String) (us : Bool) (service : String)
    (hne : ¬ url = "")
    (hpre : (pyStartsWith url "http://" || pyStartsWith url "https://") = true) :
    btn_url stub st0 url color us service =
      match generate_qr_image (resolvedTarget stub url us service) color 10 4 with
      | .error e =>
        { state := st0, warnings := []
          errors := (resolvedShorten stub url us service).errors
          encoded_payload := some (resolvedTarget stub url us service)
          networkCalls := (resolvedShorten stub url us service).networkCalls
          uncaught := some e }
      | .ok img =>
        { state :=
            { url_qr_img := some img
              url_target := some (resolvedTarget stub url us service)
              url_short := resolvedShort stub url us service }
          warnings := []
          errors := (resolvedShorten stub url us service).errors
          encoded_payload := some (resolvedTarget stub url us service)
          networkCalls := (resolvedShorten stub url us service).networkCalls
          uncaught := none } := by
  have hmid :
      btn_url stub st0 url color us service =
        match generate_qr_image (resolvedTarget stub url us service) color 10 4 with
        | .error e =>
          { state := st0, warnings := []
            errors := (resolvedShorten stub url us service).errors
            encoded_payload := some (resolvedTarget stub url us service)
            networkCalls := (resolvedShorten stub url us service).networkCalls
            uncaught := some e }
        | .ok img =>
          { state :=
              { url_qr_img := some img
                url_target := some (resolvedTarget stub url us service)
                url_short :=
                  if truthy (resolvedShort stub url us service) then
                    resolvedShort stub url us service
                  else none }
            warnings := []
            errors := (resolvedShorten stub url us service).errors
            encoded_payload := some (resolvedTarget stub url us service)
            networkCalls := (resolvedShorten stub url us service).networkCalls
            uncaught := none } := by
    unfold btn_url
    rw [if_neg hne, hpre]
    rfl
  rw [hmid, resolvedShort_idem]

/-- Whenever the encoder succeeds, the raster is square with side
`(moduleCount v + 2*border) * box_size` for the auto-selected version `v`
(in range 1-40), and every pixel is the fill colour or white. -/
theorem generate_qr_image_ok {data fill : String} {bs bd : Nat} {img : PILImage}
    (h : generate_qr_image data fill bs bd = .ok img) :
    ∃ v, 1 ≤ v ∧ v ≤ 40 ∧
      img.width = (moduleCount v + 2 * bd) * bs ∧
      img.height = (moduleCount v + 2 * bd) * bs ∧
      ∀ x y, img.pixel x y = fill ∨ img.pixel x y = "white" := by
  unfold generate_qr_image at h
  rcases hv : qrVersionFor data.utf8ByteSize with _ | v
  · rw [hv] at h
    exact absurd h (by simp)
  · rw [hv] at h
    have hle : data.utf8ByteSize ≤ 2331 := by
      by_contra hgt
      rw [qrVersionFor_eq_none (by omega)] at hv
      exact absurd hv (by simp)
    rcases qrVersionFor_eq_some hle with ⟨w, hw, hw1, hw40⟩
    have hvw : v = w := by rw [hv] at hw; exact (Option.some.injEq ..).mp hw
    subst hvw
    refine ⟨v, hw1, hw40, ?_, ?_, ?_⟩
    · simp only [Except.ok.injEq] at h
      rw [← h]
    · simp only [Except.ok.injEq] at h
      rw [← h]
    · intro x y
      simp only [Except.ok.injEq] at h
      rw [← h]
      simp only
      split
      · split
        · exact Or.inl rfl
        · exact Or.inr rfl
      · exact Or.inr rfl

/-! ### Concrete fixtures for witnesses and counterexamples -/

/-- A 10×10 all-white raster standing in for a previously cached QR image. -/
def sampleImage : PILImage := { width := 10, height := 10, pixel := fun _ _ => "white" }

/-- A session state left over from an earlier successful shortened
submission: image, target and short URL all cached. -/
def cachedState : SessionState :=
  { url_qr_img := some sampleImage
    url_target := some "https://is.gd/old"
    url_short := some "https://is.gd/old" }

/-- An empty session (first visit). -/
def emptyState : SessionState :=
  { url_qr_img := none, url_target := none, url_short := none }

/-- A provider stub that always shortens to a fixed URL. -/
def okStub : ProviderStub := fun _ _ => .ok "https://is.gd/abc"

/-- A provider stub whose call always raises. -/
def raiseStub : ProviderStub := fun _ _ => .error "timeout"

/-- A provider stub that returns the empty string. -/
def emptyStub : ProviderStub := fun _ _ => .ok ""

/-! ### Claims -/

/-- C2: a submission whose input is empty or lacks an `http://`/`https://`
prefix produces a warning and leaves the whole session state — cached QR
image, target URL and short URL — unchanged; nothing is encoded, no network
call is made, and nothing is raised. -/
theorem btn_url_invalid_input_no_mutation (stub : ProviderStub)
    (st0 : SessionState) (url_input qr_color : String) (use_shortener : Bool)
    (service : String)
    (h : url_input = "" ∨
      (pyStartsWith url_input "http://" || pyStartsWith url_input "https://") = false) :
    (btn_url stub st0 url_input qr_color use_shortener service).state = st0 ∧
    (btn_url stub st0 url_input qr_color use_shortener service).warnings ≠ [] ∧
    (btn_url stub st0 url_input qr_color use_shortener service).encoded_payload = none ∧
    (btn_url stub st0 url_input qr_color use_shortener service).networkCalls = 0 ∧
    (btn_url stub st0 url_input qr_color use_shortener service).uncaught = none := by
  rcases h with h | h
  · simp [btn_url, h]
  · by_cases he : url_input = ""
    · simp [btn_url, he]
    · simp [btn_url, he, h]

/-- Witness for C2: submitting the empty string over a populated cache
leaves the cache as it was. -/
theorem btn_url_invalid_input_no_mutation_witness :
    (btn_url okStub cachedState "" "#000000" false "Is.gd").state = cachedState ∧
    (btn_url okStub cachedState "" "#000000" false "Is.gd").warnings ≠ [] ∧
    (btn_url okStub cachedState "" "#000000" false "Is.gd").encoded_payload = none ∧
    (btn_url okStub cachedState "" "#000000" false "Is.gd").networkCalls = 0 ∧
    (btn_url okStub cachedState "" "#000000" false "Is.gd").uncaught = none :=
  btn_url_invalid_input_no_mutation okStub cachedState "" "#000000" false "Is.gd"
    (Or.inl rfl)

/-- C5: `shorten_url` always returns normally — a `some` or a `none`, never
a propagated exception: a raised provider exception is converted into a
`None` result with one `st.error` message, and an unknown provider name
yields `None` immediately with zero network calls. -/
theorem shorten_url_total_and_unknown_service (stub : ProviderStub)
    (url service_name : String) :
    ((shorten_url stub url service_name).result = none ∨
      ∃ s, (shorten_url stub url service_name).result = some s) ∧
    (serviceNames.contains service_name = false →
      shorten_url stub url service_name =
        { result := none, networkCalls := 0, errors := [] }) ∧
    (∀ e, serviceNames.contains service_name = true →
      stub service_name url = .error e →
      shorten_url stub url service_name =
        { result := none, networkCalls := 1
          errors := ["URL短縮に失敗しました: " ++ e] }) := by
  refine ⟨?_, ?_, ?_⟩
  · unfold shorten_url
    by_cases hc : serviceNames.contains service_name
    · rw [if_pos hc]
      rcases stub service_name url with e | s
      · exact Or.inl rfl
      · exact Or.inr ⟨s, rfl⟩
    · rw [if_neg hc]
      exact Or.inl rfl
  · intro hc
    unfold shorten_url
    rw [hc]
    rfl
  · intro e hc he
    unfold shorten_url
    rw [if_pos hc, he]

/-- Witness for C5: the unknown provider "Bit.ly" returns `None` with no
network call, and a raising provider call on "Is.gd" is converted to a
`None` result with one error message. -/
theorem shorten_url_total_and_unknown_service_witness :
    shorten_url raiseStub "https://example.com" "Bit.ly" =
      { result := none, networkCalls := 0, errors := [] } ∧
    shorten_url raiseStub "https://example.com" "Is.gd" =
      { result := none, networkCalls := 1
        errors := ["URL短縮に失敗しました: " ++ "timeout"] } :=
  ⟨(shorten_url_total_and_unknown_service raiseStub "https://example.com" "Bit.ly").2.1
      (by decide),
   (shorten_url_total_and_unknown_service raiseStub "https://example.com" "Is.gd").2.2
      "timeout" (by decide) rfl⟩

theorem truthy_none_eq_false : truthy none = false := rfl

theorem resolved_not_truthy (stub : ProviderStub) (url service : String)
    (h : truthy (resolvedShorten stub url true service).result = false) :
    resolvedTarget stub url true service = url ∧
    resolvedShort stub url true service = none := by
  constructor
  · unfold resolvedTarget
    rw [h]
    rfl
  · unfold resolvedShort
    rw [h]
    rfl

/-- C1: with shortening enabled, if the adapter returns `None` the pipeline
degrades gracefully: the encoder payload and the cached target are the
original input URL, no short URL is cached, and the result display shows no
short-URL message.  (The hypothesis `uncaught = none` restricts to
submissions the encoder completes; when it aborts instead, line 318 onward
never runs and nothing at all is stored.) -/
theorem btn_url_shortener_failure_fallback (stub : ProviderStub)
    (st0 : SessionState) (url color service : String) (qr_size : Nat)
    (hne : ¬ url = "")
    (hpre : (pyStartsWith url "http://" || pyStartsWith url "https://") = true)
    (hfail : (shorten_url stub url service).result = none)
    (hok : (btn_url stub st0 url color true service).uncaught = none) :
    (btn_url stub st0 url color true service).encoded_payload = some url ∧
    (btn_url stub st0 url color true service).state.url_target = some url ∧
    (btn_url stub st0 url color true service).state.url_short = none ∧
    (render_result (btn_url stub st0 url color true service).state qr_size).shortMessage
      = none := by
  have htr : truthy (resolvedShorten stub url true service).result = false := by
    unfold resolvedShorten
    rw [if_pos rfl, hfail]
    rfl
  rcases resolved_not_truthy stub url service htr with ⟨htgt, hshort⟩
  rw [btn_url_valid_eq stub st0 url color true service hne hpre] at hok ⊢
  rw [htgt] at hok ⊢
  rcases hg : generate_qr_image url color 10 4 with e | img
  · rw [hg] at hok
    exact Option.noConfusion hok
  · refine ⟨rfl, rfl, hshort, ?_⟩
    show (resolvedShort stub url true service).map (fun s => "短縮URL: " ++ s) = none
    rw [hshort]
    rfl

/-- Witness for C1: a provider call that raises makes the adapter return
`None`; the pipeline still encodes `https://example.com` itself and caches
and displays no short URL. -/
theorem btn_url_shortener_failure_fallback_witness :
    (btn_url raiseStub emptyState "https://example.com" "#000000" true "Is.gd").encoded_payload
      = some "https://example.com" ∧
    (btn_url raiseStub emptyState "https://example.com" "#000000" true "Is.gd").state.url_target
      = some "https://example.com" ∧
    (btn_url raiseStub emptyState "https://example.com" "#000000" true "Is.gd").state.url_short
      = none ∧
    (render_result
      (btn_url raiseStub emptyState "https://example.com" "#000000" true "Is.gd").state
      400).shortMessage = none :=
  btn_url_shortener_failure_fallback raiseStub emptyState "https://example.com"
    "#000000" "Is.gd" 400 (by decide) (by decide) rfl rfl

/-- C9: a shortener result that is the empty string — non-`None` but falsy —
is classified as a failure by the `if result:` truthiness test on line 309:
the original URL is encoded and no short URL is cached. -/
theorem btn_url_empty_short_result_is_failure (stub : ProviderStub)
    (st0 : SessionState) (url color service : String)
    (hne : ¬ url = "")
    (hpre : (pyStartsWith url "http://" || pyStartsWith url "https://") = true)
    (hempty : (shorten_url stub url service).result = some "")
    (hok : (btn_url stub st0 url color true service).uncaught = none) :
    (btn_url stub st0 url color true service).encoded_payload = some url ∧
    (btn_url stub st0 url color true service).state.url_target = some url ∧
    (btn_url stub st0 url color true service).state.url_short = none := by
  have htr : truthy (resolvedShorten stub url true service).result = false := by
    unfold resolvedShorten
    rw [if_pos rfl, hempty]
    rfl
  rcases resolved_not_truthy stub url service htr with ⟨htgt, hshort⟩
  rw [btn_url_valid_eq stub st0 url color true service hne hpre] at hok ⊢
  rw [htgt] at hok ⊢
  rcases hg : generate_qr_image url color 10 4 with e | img
  · rw [hg] at hok
    exact Option.noConfusion hok
  · exact ⟨rfl, rfl, hshort⟩

/-- Witness for C9: a provider stub returning `""` on `https://example.com`
leads to the original URL being encoded and no cached short URL. -/
theorem btn_url_empty_short_result_is_failure_witness :
    (btn_url emptyStub emptyState "https://example.com" "#000000" true "Is.gd").encoded_payload
      = some "https://example.com" ∧
    (btn_url emptyStub emptyState "https://example.com" "#000000" true "Is.gd").state.url_target
      = some "https://example.com" ∧
    (btn_url emptyStub emptyState "https://example.com" "#000000" true "Is.gd").state.url_short
      = none :=
  btn_url_empty_short_result_is_failure emptyStub emptyState "https://example.com"
    "#000000" "Is.gd" (by decide) (by decide) rfl rfl

/-- Counterexample to C3 as stated: a rejected submission is still a
submission, and it leaves a stale short URL cached — here a submission with
empty input, shortening NOT requested, over a cache holding a short URL
from an earlier round: afterwards `url_short` is still present (and the
result display still shows it), although shortening was neither requested
nor successful this round. -/
theorem submission_invariant_cex :
    (btn_url okStub cachedState "" "#000000" false "Is.gd").state.url_short
      = some "https://is.gd/old" ∧
    (render_result (btn_url okStub cachedState "" "#000000" false "Is.gd").state
      400).shortMessage = some ("短縮URL: " ++ "https://is.gd/old") :=
  ⟨rfl, rfl⟩

theorem resolvedShort_isSome (stub : ProviderStub) (url : String) (us : Bool)
    (service : String) :
    ((resolvedShort stub url us service).isSome = true ↔
      us = true ∧ truthy (shorten_url stub url service).result = true) := by
  unfold resolvedShort resolvedShorten
  cases us with
  | false => simp [truthy]
  | true =>
    simp only [if_pos rfl]
    rcases hr : (shorten_url stub url service).result with _ | s
    · simp [truthy, hr]
    · by_cases hs : s = ""
      · subst hs
        simp [truthy, hr]
      · simp [truthy, hr, hs]

/-- C3 (amended): after every submission that writes state — one that
passes validation and whose encoding succeeds — the invariant holds: the
cached QR image and target URL are both present, and the cached short URL
is present iff shortening was requested this round and returned a truthy
result (so a stale short URL is cleared on such submissions).  A rejected
or encoder-aborted submission writes nothing and can leave a stale short
URL cached (see the counterexample). -/
theorem submission_invariant_amended (stub : ProviderStub) (st0 : SessionState)
    (url color : String) (us : Bool) (service : String)
    (hne : ¬ url = "")
    (hpre : (pyStartsWith url "http://" || pyStartsWith url "https://") = true)
    (hok : (btn_url stub st0 url color us service).uncaught = none) :
    (btn_url stub st0 url color us service).state.url_qr_img.isSome = true ∧
    (btn_url stub st0 url color us service).state.url_target.isSome = true ∧
    ((btn_url stub st0 url color us service).state.url_short.isSome = true ↔
      us = true ∧ truthy (shorten_url stub url service).result = true) := by
  rw [btn_url_valid_eq stub st0 url color us service hne hpre] at hok ⊢
  rcases hg : generate_qr_image (resolvedTarget stub url us service) color 10 4
    with e | img
  · rw [hg] at hok
    exact Option.noConfusion hok
  · exact ⟨rfl, rfl, resolvedShort_isSome stub url us service⟩

/-- Witness for the amended C3: a successful shortened submission caches
image, target and short URL together. -/
theorem submission_invariant_amended_witness :
    (btn_url okStub cachedState "https://example.com" "#000000" true "Is.gd").state.url_qr_img.isSome
      = true ∧
    (btn_url okStub cachedState "https://example.com" "#000000" true "Is.gd").state.url_target.isSome
      = true ∧
    ((btn_url okStub cachedState "https://example.com" "#000000" true "Is.gd").state.url_short.isSome
        = true ↔
      true = true ∧ truthy (shorten_url okStub "https://example.com" "Is.gd").result = true) :=
  submission_invariant_amended okStub cachedState "https://example.com" "#000000"
    true "Is.gd" (by decide) (by decide) rfl

/-- C4: when the encoder raises (`uncaught` is set), the lines that store
the result never run: the prior session state — cached image, target and
short URL — is untouched.  The uncaught exception is what the UI framework
surfaces as an inline error message; the script run still terminates
normally (`btn_url` is total). -/
theorem btn_url_encoding_error_no_overwrite (stub : ProviderStub)
    (st0 : SessionState) (url color : String) (us : Bool) (service : String)
    (e : String)
    (h : (btn_url stub st0 url color us service).uncaught = some e) :
    (btn_url stub st0 url color us service).state = st0 := by
  by_cases h1 : url = ""
  · simp [btn_url, h1]
  · by_cases h2 : (pyStartsWith url "http://" || pyStartsWith url "https://") = true
    · rw [btn_url_valid_eq stub st0 url color us service h1 h2] at h ⊢
      rcases hg : generate_qr_image (resolvedTarget stub url us service) color 10 4
        with e' | img
      · rfl
      · rw [hg] at h
        exact Option.noConfusion h
    · have h2' : (pyStartsWith url "http://" || pyStartsWith url "https://") = false := by
        simpa using h2
      simp [btn_url, h1, h2']

/-- Witness for C4: a 2348-byte URL overflows version-40 capacity, the
encoder raises `DataOverflowError`, and the populated cache is untouched. -/
theorem btn_url_encoding_error_no_overwrite_witness :
    (btn_url okStub cachedState bigUrl "#000000" false "Is.gd").state = cachedState :=
  btn_url_encoding_error_no_overwrite okStub cachedState bigUrl "#000000" false
    "Is.gd" "DataOverflowError"
    (by
      rw [btn_url_valid_eq okStub cachedState bigUrl "#000000" false "Is.gd"
        bigUrl_ne_empty (by rw [bigUrl_https, Bool.or_true])]
      have htgt : resolvedTarget okStub bigUrl false "Is.gd" = bigUrl := rfl
      rw [htgt, generate_qr_image_overflow])

/-- C10: every pipeline call of the encoder uses the defaults
`box_size = 10`, `border = 4`, so whenever a submission writes a fresh
image into the cache it has side `(moduleCount v + 2*4) * 10
= (moduleCount v + 8) * 10` pixels for the auto-selected version `v`. -/
theorem btn_url_cached_image_dimensions (stub : ProviderStub)
    (st0 : SessionState) (url color : String) (us : Bool) (service : String)
    (hne : ¬ url = "")
    (hpre : (pyStartsWith url "http://" || pyStartsWith url "https://") = true)
    (hok : (btn_url stub st0 url color us service).uncaught = none) :
    ∃ v img, 1 ≤ v ∧ v ≤ 40 ∧
      (btn_url stub st0 url color us service).state.url_qr_img = some img ∧
      img.width = (moduleCount v + 2 * 4) * 10 ∧
      img.height = (moduleCount v + 2 * 4) * 10 := by
  rw [btn_url_valid_eq stub st0 url color us service hne hpre] at hok ⊢
  rcases hg : generate_qr_image (resolvedTarget stub url us service) color 10 4
    with e | img
  · rw [hg] at hok
    exact Option.noConfusion hok
  · rcases generate_qr_image_ok hg with ⟨v, h1, h40, hw, hh, _⟩
    exact ⟨v, img, h1, h40, rfl, hw, hh⟩

/-- Witness for C10: a plain submission of `https://example.com` caches an
image whose side is `(moduleCount v + 8) * 10` for some version `v`. -/
theorem btn_url_cached_image_dimensions_witness :
    ∃ v img, 1 ≤ v ∧ v ≤ 40 ∧
      (btn_url okStub emptyState "https://example.com" "#000000" false "Is.gd").state.url_qr_img
        = some img ∧
      img.width = (moduleCount v + 2 * 4) * 10 ∧
      img.height = (moduleCount v + 2 * 4) * 10 :=
  btn_url_cached_image_dimensions okStub emptyState "https://example.com"
    "#000000" false "Is.gd" (by decide) (by decide) rfl

/-- C7: the pipeline is deterministic across runs: submitting the same
inputs a second time — against whatever session state the first run left —
produces the same session state and hence byte-identical download PNG
output; in particular `image_to_bytes` is a function of the pixel data
alone, so PNG export is deterministic for identical pixel input. -/
theorem pipeline_second_run_identical (stub : ProviderStub) (st0 : SessionState)
    (url color : String) (us : Bool) (service : String) (qr_size : Nat) :
    (btn_url stub (btn_url stub st0 url color us service).state url color us
        service).state
      = (btn_url stub st0 url color us service).state ∧
    (render_result
        (btn_url stub (btn_url stub st0 url color us service).state url color us
          service).state qr_size).png
      = (render_result (btn_url stub st0 url color us service).state qr_size).png := by
  have hstate :
      (btn_url stub (btn_url stub st0 url color us service).state url color us
          service).state
        = (btn_url stub st0 url color us service).state := by
    by_cases h1 : url = ""
    · simp [btn_url, h1]
    · by_cases h2 : (pyStartsWith url "http://" || pyStartsWith url "https://") = true
      · rw [btn_url_valid_eq stub st0 url color us service h1 h2]
        rcases hg : generate_qr_image (resolvedTarget stub url us service) color 10 4
          with e | img
        · rw [btn_url_valid_eq stub _ url color us service h1 h2, hg]
        · rw [btn_url_valid_eq stub _ url color us service h1 h2, hg]
      · have h2' :
            (pyStartsWith url "http://" || pyStartsWith url "https://") = false := by
          simpa using h2
        simp [btn_url, h1, h2']
  exact ⟨hstate, by rw [hstate]⟩

/-- C6: resizing any cached image to `S × S` with nearest-neighbour
sampling and exporting it with `image_to_bytes` yields a PNG whose decoded
pixel dimensions are exactly `S × S`, for each selectable size `S`. -/
theorem resize_export_roundtrip_dims (img : PILImage) (S : Nat)
    (hS : S ∈ [200, 300, 400, 500, 600]) :
    pngDecodeDims (image_to_bytes (img.resize S S)) = some (S, S) := by
  fin_cases hS <;>
    · simp only [PILImage.resize, image_to_bytes, pngDecodeDims, pngSignature,
        u32be, beNat]
      norm_num

/-- Witness for C6: the 10×10 sample image resized to 200×200 decodes to
200×200. -/
theorem resize_export_roundtrip_dims_witness :
    pngDecodeDims (image_to_bytes (sampleImage.resize 200 200)) = some (200, 200) :=
  resize_export_roundtrip_dims sampleImage 200 (by decide)

/-- Counterexample to C8 as stated: not every `http(s)`-prefixed non-empty
input encodes successfully — a 2348-byte URL exceeds the version-40
level-M byte capacity (2331) and `generate_qr_image` raises
`DataOverflowError` instead of returning an image. -/
theorem generate_qr_image_succeeds_cex :
    bigUrl ≠ "" ∧
    pyStartsWith bigUrl "https://" = true ∧
    generate_qr_image bigUrl "black" 10 4 = .error "DataOverflowError" :=
  ⟨bigUrl_ne_empty, bigUrl_https, generate_qr_image_overflow "black"⟩

/-- C8 (amended): for every non-empty `http(s)`-prefixed input whose
payload fits the maximum symbol capacity (2331 bytes, version 40 at level
M), `generate_qr_image` succeeds and returns a two-colour raster — every
pixel is the fill colour or white — whose side length is
`(moduleCount v + 2*border) * box_size` pixels for the auto-selected
version `v`. -/
theorem generate_qr_image_succeeds_amended (data fill : String)
    (hne : ¬ data = "")
    (hpre : (pyStartsWith data "http://" || pyStartsWith data "https://") = true)
    (hcap : data.utf8ByteSize ≤ 2331) :
    ∃ v img, 1 ≤ v ∧ v ≤ 40 ∧
      generate_qr_image data fill 10 4 = .ok img ∧
      img.width = (moduleCount v + 2 * 4) * 10 ∧
      img.height = (moduleCount v + 2 * 4) * 10 ∧
      ∀ x y, img.pixel x y = fill ∨ img.pixel x y = "white" := by
  rcases qrVersionFor_eq_some hcap with ⟨w, hw, _, _⟩
  have hex : ∃ img, generate_qr_image data fill 10 4 = .ok img := by
    unfold generate_qr_image
    rw [hw]
    exact ⟨_, rfl⟩
  rcases hex with ⟨img, heq⟩
  rcases generate_qr_image_ok heq with ⟨v, h1, h40, hwd, hht, hpix⟩
  exact ⟨v, img, h1, h40, heq, hwd, hht, hpix⟩

/-- Witness for the amended C8: `https://example.com` (19 bytes) encodes
successfully with the stated dimensions and colours. -/
theorem generate_qr_image_succeeds_amended_witness :
    ∃ v img, 1 ≤ v ∧ v ≤ 40 ∧
      generate_qr_image "https://example.com" "black" 10 4 = .ok img ∧
      img.width = (moduleCount v + 2 * 4) * 10 ∧
      img.height = (moduleCount v + 2 * 4) * 10 ∧
      ∀ x y, img.pixel x y = "black" ∨ img.pixel x y = "white" :=
  generate_qr_image_succeeds_amended "https://example.com" "black" (by decide)
    (by decide) (by decide)
